import Mathlib

/-!
Verification of the reconciliation core of sync-ovo-numbers-service
(`src/app.js`) against its natural-language specification.

Shallow embedding conventions:
* JavaScript optional / nullable / falsy string values are modelled as
  `Option String`, with `none` standing for every JS-falsy value
  (`undefined`, `null`, `""`).  The code only ever tests such values for
  truthiness (`if (x)`) and loose inequality (`x != y`), and both tests
  agree with the `Option` model.
* Store writes and the external query are modelled as an emitted list of
  `Event`s; the store-read collaborators (`getKboOrganizationInfo`,
  snapshot lookup) are passed in as functions.
* `constructOvoStructure` mints a fresh URI; the minting is modelled by a
  function argument `mint : String → String` from the anchoring
  structured-id URI to the new URI.
* Asynchronous failure of a sweep iteration is modelled with
  `Except String (List Event)` per-record steps.
-/

/-- The typed field set extracted from one external (Wegwijs) item by
`getKboFields` (`lib/wegwijs-api`, not part of `src/`): business identifier
value, change timestamp, OVO value and the remaining descriptive fields.
Optional string fields use `none` for JS-falsy values. -/
structure KboFields where
  kboNumber : String
  changeTime : Option String
  ovoNumber : Option String
  name : String
  shortName : String
  deriving Repr, DecidableEq

/-- The existing internal business-identifier (KBO) record as returned by the
store read `getKboOrganizationInfo`: its URI and its last-modified
timestamp. -/
structure KboOrganizationInfo where
  kboOrgUri : String
  modified : Option String
  deriving Repr, DecidableEq

/-- The internal organization record (`getAbbOrganizationInfo` /
`getAllAbbKboOrganizations` row): organization URI, optional business
identifier value `kbo`, identifier URI, optional OVO value, the structured-id
URI anchoring a new OVO structure, and the optional existing OVO-structure
URI. -/
structure AbbOrganizationInfo where
  abbOrgUri : String
  kbo : Option String
  kboIdUri : String
  ovo : Option String
  kboStructuredIdUri : String
  ovoStructuredIdUri : Option String
  deriving Repr, DecidableEq

/-- One observable effect of the core: a store write
(`createKboOrg`, `updateKboOrg`, `constructOvoStructure`,
`updateOvoNumberAndUri`) or the targeted external query
(`getWegwijsOrganisation`'s fetch). -/
inductive Event where
  | createKbo (fields : Option KboFields) (kboIdentifierUri abbOrgUri : String)
  | updateKbo (fields : Option KboFields) (info : Option KboOrganizationInfo)
  | constructOvo (kboStructuredIdUri : String) (newUri : String)
  | updateOvo (uri : String) (ovo : String)
  | wegwijsQuery (kbo : String)
  deriving Repr, DecidableEq

/-- Lexicographic strict comparison of character lists by code point; an
executable version of the lexicographic order on `List Char`
(`charListLt_iff` below links it to the ambient `<`). -/
def charListLt : List Char → List Char → Bool
  | _, [] => false
  | [], _ :: _ => true
  | a :: as, b :: bs =>
    if a < b then true
    else if b < a then false
    else charListLt as bs

/-- Executable strict lexicographic comparison of strings; on ISO-8601
timestamps this lexical order coincides with temporal order. -/
def isoStrLt (a b : String) : Bool := charListLt a.toList b.toList

/-- Modelled from the spec: `isUpdateNeeded` lives in `lib/wegwijs-api`,
which is not under `src/`.  Per the spec (§4.2): false when the external
change time is absent; true when it is present and the internal one is
absent; otherwise true iff the external time is strictly later under
ISO-8601 lexical ordering (string order). -/
def isUpdateNeeded (externalChangeTime internalChangeTime : Option String) : Bool :=
  match externalChangeTime with
  | none => false
  | some t1 =>
    match internalChangeTime with
    | none => true
    | some t2 => isoStrLt t2 t1

/-- `createOrUpdateKboOrg` (`src/app.js` lines 82–97).  The store read
`getKboOrganizationInfo(abbOrgUri)` is supplied as `kboOrganizationInfo`;
the function returns the writes it issues. -/
def createOrUpdateKboOrg (abbOrgUri kboIdentifierUri : String)
    (kboFields : Option KboFields)
    (kboOrganizationInfo : Option KboOrganizationInfo) : List Event :=
  let isCreateNeeded := kboOrganizationInfo.isNone && kboFields.isSome
  if isCreateNeeded then
    [Event.createKbo kboFields kboIdentifierUri abbOrgUri]
  else if kboOrganizationInfo.isSome
      && isUpdateNeeded (kboFields.bind KboFields.changeTime)
           (kboOrganizationInfo.bind KboOrganizationInfo.modified) then
    [Event.updateKbo kboFields kboOrganizationInfo]
  else
    []

/-- `createOrUpdateOvoStructure` (`src/app.js` lines 106–120).  `mintedUri`
is the URI `constructOvoStructure` would mint for `kboStructuredIdUri`. -/
def createOrUpdateOvoStructure (wegwijsOvo abbOvo : Option String)
    (kboStructuredIdUri : String) (ovoStructuredIdUri : Option String)
    (mintedUri : String) : List Event :=
  match wegwijsOvo with
  | none => []
  | some ovo =>
    if abbOvo = some ovo then
      []
    else
      match ovoStructuredIdUri with
      | none =>
        [Event.constructOvo kboStructuredIdUri mintedUri,
         Event.updateOvo mintedUri ovo]
      | some uri => [Event.updateOvo uri ovo]

/-- The body of one sweep iteration (`src/app.js` lines 131–147): look the
record's business identifier up in the fetched snapshot; when a match is
found run `createOrUpdateKboOrg` and then `createOrUpdateOvoStructure`.
`store` is the `getKboOrganizationInfo` collaborator, `mint` the URI minted
by `constructOvoStructure`. -/
def healStep (snap : String → Option KboFields)
    (store : String → Option KboOrganizationInfo)
    (mint : String → String) (o : AbbOrganizationInfo) : List Event :=
  match o.kbo.bind snap with
  | none => []
  | some wegwijsKboFields =>
    createOrUpdateKboOrg o.abbOrgUri o.kboIdUri (some wegwijsKboFields)
        (store o.abbOrgUri)
      ++ createOrUpdateOvoStructure wegwijsKboFields.ovoNumber o.ovo
        o.kboStructuredIdUri o.ovoStructuredIdUri (mint o.kboStructuredIdUri)

/-- The failure-free sweep (`healAbbWithWegWijsData`, `src/app.js`
lines 125–152): every record of the internal population is processed in
order and the writes are concatenated. -/
def healAbbWithWegWijsDataPure (records : List AbbOrganizationInfo)
    (snap : String → Option KboFields)
    (store : String → Option KboOrganizationInfo)
    (mint : String → String) : List Event :=
  (records.map (healStep snap store mint)).flatten

/-- A RecordReconciler store write (`createKboOrg` / `updateKboOrg`). -/
def isReconcilerEvent : Event → Bool
  | Event.createKbo _ _ _ => true
  | Event.updateKbo _ _ => true
  | _ => false

/-- A SecondaryIdResolver store write (`constructOvoStructure` /
`updateOvoNumberAndUri`). -/
def isResolverEvent : Event → Bool
  | Event.constructOvo _ _ => true
  | Event.updateOvo _ _ => true
  | _ => false

/-- The outcome of the single-record path (`POST
/sync-kbo-data/:kboStructuredIdUuid`): the enumerated `(code, bodyText)`
responses of `src/app.js` lines 22–57. `noInternalIdentifier` is
`STATUS_NO_DATA_OP`, `noExternalMatch` is `ERROR_NO_DATA_WEGWIJS`. -/
inductive SyncResult where
  | noInternalIdentifier
  | noExternalMatch
  | ok
  deriving Repr, DecidableEq

/-- `getWegwijsOrganisation` (`src/app.js` lines 159–167): the targeted
query's decoded result array (items already passed through `getKboFields`);
`data.length ? getKboFields(data[0]) : null`. -/
def getWegwijsOrganisation (data : List KboFields) : Option KboFields :=
  match data with
  | [] => none
  | x :: _ => some x

/-- The single-record handler (`src/app.js` lines 22–57).  `abbInfo` is the
result of `getAbbOrganizationInfo` (`none` for a missing record; `kbo = none`
for a record without business-identifier value), `wegwijsResults` the
targeted query's result array per KBO number, `store` the
`getKboOrganizationInfo` read, `mint` the URI minted by
`constructOvoStructure`.  Returns the HTTP outcome and the emitted
query/write events in order. -/
def syncKboData (abbInfo : Option AbbOrganizationInfo)
    (wegwijsResults : String → List KboFields)
    (store : String → Option KboOrganizationInfo)
    (mint : String → String) : SyncResult × List Event :=
  match abbInfo with
  | none => (SyncResult.noInternalIdentifier, [])
  | some info =>
    match info.kbo with
    | none => (SyncResult.noInternalIdentifier, [])
    | some kbo =>
      match getWegwijsOrganisation (wegwijsResults kbo) with
      | none => (SyncResult.noExternalMatch, [Event.wegwijsQuery kbo])
      | some kboFields =>
        (SyncResult.ok,
          Event.wegwijsQuery kbo
            :: (createOrUpdateKboOrg info.abbOrgUri info.kboIdUri
                  (some kboFields) (store info.abbOrgUri)
                ++ createOrUpdateOvoStructure kboFields.ovoNumber info.ovo
                  info.kboStructuredIdUri info.ovoStructuredIdUri
                  (mint info.kboStructuredIdUri)))

/-- The empty `organisations` object of `getAllWegwijsOrganisations`. -/
def emptyOrganisations : String → Option KboFields := fun _ => none

/-- `organisations[kboFields.kboNumber] = kboFields` (`src/app.js`
line 188): pointwise overwrite of the mapping. -/
def insertOrg (m : String → Option KboFields) (f : KboFields) :
    String → Option KboFields :=
  fun k => if k = f.kboNumber then some f else m k

/-- The `data.forEach` body of `src/app.js` lines 186–189 applied to one
page: each item is inserted (overwriting) keyed by its KBO number. -/
def insertPage (m : String → Option KboFields) (page : List KboFields) :
    String → Option KboFields :=
  page.foldl insertOrg m

/-- The `do … while (data.length)` loop of `src/app.js` lines 185–195 after
the first page has been processed: fetch the next page (past the end of the
page sequence the scroll endpoint yields an empty array), stop if it is
empty, otherwise process it and continue. -/
def fetchLoop (m : String → Option KboFields) :
    List (List KboFields) → String → Option KboFields
  | [] => m
  | d :: rest => if d.isEmpty then m else fetchLoop (insertPage m d) rest

/-- `getAllWegwijsOrganisations` (`src/app.js` lines 174–198) over the page
sequence served by the external API (items already passed through
`getKboFields`): the initial page is processed unconditionally by the
`do`-block, then `fetchLoop` continues. -/
def getAllWegwijsOrganisations (pages : List (List KboFields)) :
    String → Option KboFields :=
  match pages with
  | [] => emptyOrganisations
  | d0 :: rest => fetchLoop (insertPage emptyOrganisations d0) rest

/-- The pages the loop actually processes: the initial page, then the
longest prefix of subsequent pages that are all non-empty. -/
def processedPages (pages : List (List KboFields)) : List (List KboFields) :=
  match pages with
  | [] => []
  | d0 :: rest => d0 :: rest.takeWhile (fun p => !p.isEmpty)

/-- The last item with the given KBO number in a list, if any
(last-occurrence-wins resolution). -/
def lastMatch (k : String) : List KboFields → Option KboFields
  | [] => none
  | f :: rest =>
    match lastMatch k rest with
    | some g => some g
    | none => if f.kboNumber = k then some f else none

/-- The paged fetcher as the specification's words describe it: fetching
stops at the first page with zero items — including the initial page — so
only the pages strictly before the first empty one contribute entries. -/
def fetchAllAsClaimed (pages : List (List KboFields)) :
    String → Option KboFields :=
  insertPage emptyOrganisations (pages.takeWhile (fun p => !p.isEmpty)).flatten

/-- The events a successful sweep iteration emits, or the error it raises
(`Except.error`): models the awaited store/network calls of one iteration of
the `for` loop in `healAbbWithWegWijsData` being able to reject. -/
def sweepRun (step : AbbOrganizationInfo → Except String (List Event)) :
    List AbbOrganizationInfo → List Event × Option String
  | [] => ([], none)
  | o :: rest =>
    match step o with
    | Except.error e => ([], some e)
    | Except.ok evs =>
      match sweepRun step rest with
      | (evs2, err) => (evs ++ evs2, err)

/-- `healAbbWithWegWijsData` (`src/app.js` lines 125–152) with possibly
failing iterations: the `try`/`catch` around the loop turns the first raised
error into a logged value (`Option String`); the writes issued before the
failure stand, and the function always returns normally. -/
def healAbbWithWegWijsData
    (step : AbbOrganizationInfo → Except String (List Event))
    (records : List AbbOrganizationInfo) : List Event × Option String :=
  sweepRun step records

/-- The cron callback (`src/app.js` lines 59–74): runs the healing function
inside its own `try`/`catch`; by construction it returns a plain value and
never propagates a failure. -/
def cronTick (step : AbbOrganizationInfo → Except String (List Event))
    (records : List AbbOrganizationInfo) : List Event × Option String :=
  healAbbWithWegWijsData step records

/-- The events of a successful iteration (`[]` for a failed one). -/
def okEvents : Except String (List Event) → List Event
  | Except.ok evs => evs
  | Except.error _ => []

/-- `true` iff the iteration step succeeds. -/
def stepOk : Except String (List Event) → Bool
  | Except.ok _ => true
  | Except.error _ => false

/-- The internal per-organization state the store writes act on: the
existing business-identifier (KBO) record, the OVO value and the
OVO-structure URI. -/
structure OrgState where
  kboInfo : Option KboOrganizationInfo
  ovo : Option String
  ovoStructuredIdUri : Option String
  deriving Repr, DecidableEq

/-- Modelled from the spec: the store collaborators (`createKboOrg`,
`updateKboOrg`, `constructOvoStructure`, `updateOvoNumberAndUri`) live in
`lib/queries`, not under `src/`.  Per §4.3 a create/update writes the full
snapshot field set — including the change timestamp — onto the record, per
§4.4/§6 `constructOvoStructure` links a new structure URI and
`updateOvoNumberAndUri` writes the OVO value at it. -/
def applyEvent (st : OrgState) : Event → OrgState
  | Event.createKbo fo _ abbOrgUri =>
    { st with
      kboInfo := some ⟨abbOrgUri ++ "/kbo", fo.bind KboFields.changeTime⟩ }
  | Event.updateKbo fo info =>
    { st with
      kboInfo := some ⟨(info.map KboOrganizationInfo.kboOrgUri).getD "",
        fo.bind KboFields.changeTime⟩ }
  | Event.constructOvo _ newUri => { st with ovoStructuredIdUri := some newUri }
  | Event.updateOvo _ ovo => { st with ovo := some ovo }
  | Event.wegwijsQuery _ => st

/-- Apply a list of store writes in order. -/
def applyEvents (st : OrgState) (evs : List Event) : OrgState :=
  evs.foldl applyEvent st

/-- One full reconciliation of one organization against a present snapshot:
`createOrUpdateKboOrg` followed by `createOrUpdateOvoStructure`, reading the
organization's current state. -/
def reconcileOrg (abbOrgUri kboIdUri kboStructuredIdUri mint : String)
    (fields : KboFields) (st : OrgState) : List Event :=
  createOrUpdateKboOrg abbOrgUri kboIdUri (some fields) st.kboInfo
    ++ createOrUpdateOvoStructure fields.ovoNumber st.ovo kboStructuredIdUri
      st.ovoStructuredIdUri mint

/-- Concrete snapshot entry used for the order-of-invocation analysis of the
sweep. -/
def c1Fields : KboFields :=
  ⟨"0123456789", some "2024-01-01T00:00:00Z", some "OVO002", "Some Org", "SO"⟩

/-- Concrete internal record used for the order-of-invocation analysis. -/
def c1Record : AbbOrganizationInfo :=
  ⟨"uri-org", some "0123456789", "uri-kbo-id", none, "uri-kbo-sid", none⟩

/-- Concrete snapshot mapping used for the order-of-invocation analysis. -/
def c1Snap : String → Option KboFields :=
  fun k => if k = "0123456789" then some c1Fields else none

/-- Concrete store read (no existing KBO record). -/
def c1Store : String → Option KboOrganizationInfo := fun _ => none

/-- Concrete URI minting for the order-of-invocation analysis. -/
def c1Mint : String → String := fun _ => "uri-ovo-sid"

/-- Concrete snapshot entry for the pagination analysis. -/
def c6Org : KboFields :=
  ⟨"0123456789", some "2024-01-01T00:00:00Z", none, "Some Org", "SO"⟩

/-- Concrete failing-capable iteration step for the sweep failure
analysis: the record with organization URI `"uri-bad"` raises, every other
record issues one OVO write. -/
def c8Step (o : AbbOrganizationInfo) : Except String (List Event) :=
  if o.abbOrgUri = "uri-bad" then Except.error "boom"
  else Except.ok [Event.updateOvo o.abbOrgUri "OVO001"]

/-- Concrete sweep records for the failure analysis. -/
def c8Good1 : AbbOrganizationInfo :=
  ⟨"uri-good-1", some "111", "uri-kid-1", none, "uri-sid-1", none⟩

/-- Concrete failing sweep record. -/
def c8Bad : AbbOrganizationInfo :=
  ⟨"uri-bad", some "222", "uri-kid-2", none, "uri-sid-2", none⟩

/-- Concrete sweep record after the failing one. -/
def c8Good2 : AbbOrganizationInfo :=
  ⟨"uri-good-3", some "333", "uri-kid-3", none, "uri-sid-3", none⟩

theorem charListLt_iff (as bs : List Char) : charListLt as bs = true ↔ as < bs := by
  induction as generalizing bs with
  | nil =>
    cases bs with
    | nil =>
      constructor
      · intro h; simp [charListLt] at h
      · intro h; cases h
    | cons b bs =>
      constructor
      · intro _; exact List.Lex.nil
      · intro _; rfl
  | cons a as ih =>
    cases bs with
    | nil =>
      constructor
      · intro h; simp [charListLt] at h
      · intro h; cases h
    | cons b bs =>
      simp only [charListLt]
      by_cases hab : a < b
      · simp only [hab, if_true, true_iff]
        exact List.Lex.rel hab
      · by_cases hba : b < a
        · rw [if_neg hab, if_pos hba]
          simp only [Bool.false_eq_true, false_iff]
          intro h
          cases h with
          | cons h => exact absurd hba (lt_irrefl a)
          | rel h => exact hab h
        · have heq : a = b := le_antisymm (not_lt.mp hba) (not_lt.mp hab)
          subst heq
          simp only [hab, if_false, ih]
          constructor
          · intro h; exact List.Lex.cons h
          · intro h
            cases h with
            | cons h => exact h
            | rel h => exact absurd h hab

theorem isoStrLt_iff (a b : String) : isoStrLt a b = true ↔ a < b := by
  rw [String.lt_iff_toList_lt]
  exact charListLt_iff a.toList b.toList

theorem isoStrLt_irrefl (t : String) : isoStrLt t t = false := by
  cases h : isoStrLt t t with
  | false => rfl
  | true => exact absurd ((isoStrLt_iff t t).mp h) (lt_irrefl t)

theorem isUpdateNeeded_refl (t : Option String) : isUpdateNeeded t t = false := by
  cases t with
  | none => rfl
  | some s => simp [isUpdateNeeded, isoStrLt_irrefl]

/-- C5: the change detector `isUpdateNeeded` returns false whenever the
external change time is absent, true whenever it is present and the internal
one is absent, and otherwise true iff the external time is strictly later
under ISO-8601 (lexical) string ordering. -/
theorem claim_C5 (t1 t2 : String) :
    (∀ t : Option String, isUpdateNeeded none t = false)
    ∧ isUpdateNeeded (some t1) none = true
    ∧ (isUpdateNeeded (some t1) (some t2) = true ↔ t2 < t1) := by
  refine ⟨fun t => rfl, rfl, ?_⟩
  simpa [isUpdateNeeded] using isoStrLt_iff t2 t1

/-- C2: `createOrUpdateKboOrg` with a present snapshot issues exactly one
create when no existing record is found, exactly one update when one is
found and the change detector says yes, and nothing when it says no; with an
absent snapshot it never writes. -/
theorem claim_C2 (abbOrgUri kboIdUri : String) (f : KboFields)
    (info : Option KboOrganizationInfo) :
    (info = none →
      createOrUpdateKboOrg abbOrgUri kboIdUri (some f) info
        = [Event.createKbo (some f) kboIdUri abbOrgUri])
    ∧ (∀ i : KboOrganizationInfo, info = some i →
        isUpdateNeeded f.changeTime i.modified = true →
        createOrUpdateKboOrg abbOrgUri kboIdUri (some f) info
          = [Event.updateKbo (some f) (some i)])
    ∧ (∀ i : KboOrganizationInfo, info = some i →
        isUpdateNeeded f.changeTime i.modified = false →
        createOrUpdateKboOrg abbOrgUri kboIdUri (some f) info = [])
    ∧ createOrUpdateKboOrg abbOrgUri kboIdUri none info = [] := by
  refine ⟨?_, ?_, ?_, ?_⟩
  · intro h; subst h; rfl
  · intro i h hu; subst h; simp [createOrUpdateKboOrg, hu]
  · intro i h hu; subst h; simp [createOrUpdateKboOrg, hu]
  · cases info with
    | none => rfl
    | some i => simp [createOrUpdateKboOrg, isUpdateNeeded]

theorem claim_C2_witness :
    createOrUpdateKboOrg "uri-a" "uri-k"
        (some ⟨"111", some "2024-01-01", none, "N", "S"⟩) none
      = [Event.createKbo (some ⟨"111", some "2024-01-01", none, "N", "S"⟩)
          "uri-k" "uri-a"]
    ∧ createOrUpdateKboOrg "uri-a" "uri-k"
        (some ⟨"111", some "2024-01-01", none, "N", "S"⟩)
        (some ⟨"uri-x", none⟩)
      = [Event.updateKbo (some ⟨"111", some "2024-01-01", none, "N", "S"⟩)
          (some ⟨"uri-x", none⟩)]
    ∧ createOrUpdateKboOrg "uri-a" "uri-k"
        (some ⟨"111", none, none, "N", "S"⟩) (some ⟨"uri-x", none⟩) = []
    ∧ createOrUpdateKboOrg "uri-a" "uri-k" none (some ⟨"uri-x", none⟩) = [] :=
  ⟨(claim_C2 "uri-a" "uri-k" ⟨"111", some "2024-01-01", none, "N", "S"⟩
      none).1 rfl,
   (claim_C2 "uri-a" "uri-k" ⟨"111", some "2024-01-01", none, "N", "S"⟩
      (some ⟨"uri-x", none⟩)).2.1 ⟨"uri-x", none⟩ rfl rfl,
   (claim_C2 "uri-a" "uri-k" ⟨"111", none, none, "N", "S"⟩
      (some ⟨"uri-x", none⟩)).2.2.1 ⟨"uri-x", none⟩ rfl rfl,
   (claim_C2 "uri-a" "uri-k" ⟨"111", none, none, "N", "S"⟩
      (some ⟨"uri-x", none⟩)).2.2.2⟩

/-- C3: when the external OVO value is absent or equal to the internal one,
`createOrUpdateOvoStructure` issues no write at all, and applying its
(empty) writes leaves the internal OVO value and structure URI untouched. -/
theorem claim_C3 (wegwijsOvo abbOvo : Option String) (sid : String)
    (ovoSid : Option String) (mint : String)
    (h : wegwijsOvo = none ∨ wegwijsOvo = abbOvo) :
    createOrUpdateOvoStructure wegwijsOvo abbOvo sid ovoSid mint = []
    ∧ ∀ st : OrgState,
        applyEvents st (createOrUpdateOvoStructure wegwijsOvo abbOvo sid
          ovoSid mint) = st := by
  have h0 : createOrUpdateOvoStructure wegwijsOvo abbOvo sid ovoSid mint = [] := by
    rcases h with h | h
    · subst h; rfl
    · subst h
      cases wegwijsOvo with
      | none => rfl
      | some s => simp [createOrUpdateOvoStructure]
  exact ⟨h0, fun st => by rw [h0]; rfl⟩

theorem claim_C3_witness :
    (createOrUpdateOvoStructure none (some "OVO001") "uri-sid" none "uri-new"
        = []
      ∧ applyEvents ⟨none, some "OVO001", none⟩
          (createOrUpdateOvoStructure none (some "OVO001") "uri-sid" none
            "uri-new") = ⟨none, some "OVO001", none⟩)
    ∧ createOrUpdateOvoStructure (some "OVO001") (some "OVO001") "uri-sid"
        none "uri-new" = [] :=
  ⟨⟨(claim_C3 none (some "OVO001") "uri-sid" none "uri-new" (Or.inl rfl)).1,
    (claim_C3 none (some "OVO001") "uri-sid" none "uri-new" (Or.inl rfl)).2
      ⟨none, some "OVO001", none⟩⟩,
   (claim_C3 (some "OVO001") (some "OVO001") "uri-sid" none "uri-new"
      (Or.inr rfl)).1⟩

/-- C4: when the external OVO value is present and differs from the internal
one, with no existing structure URI exactly one structure is constructed
(anchored to the structured-id URI) and the value write targets the minted
URI; with an existing structure URI nothing is constructed and the write
targets that URI. -/
theorem claim_C4 (ovo : String) (abbOvo : Option String) (sid mint : String)
    (h : abbOvo ≠ some ovo) :
    createOrUpdateOvoStructure (some ovo) abbOvo sid none mint
      = [Event.constructOvo sid mint, Event.updateOvo mint ovo]
    ∧ ∀ uri : String,
        createOrUpdateOvoStructure (some ovo) abbOvo sid (some uri) mint
          = [Event.updateOvo uri ovo] := by
  constructor
  · simp [createOrUpdateOvoStructure, h]
  · intro uri; simp [createOrUpdateOvoStructure, h]

theorem claim_C4_witness :
    createOrUpdateOvoStructure (some "OVO002") (some "OVO001") "uri-sid" none
        "uri-new"
      = [Event.constructOvo "uri-sid" "uri-new",
         Event.updateOvo "uri-new" "OVO002"]
    ∧ createOrUpdateOvoStructure (some "OVO002") (some "OVO001") "uri-sid"
        (some "uri-old") "uri-new" = [Event.updateOvo "uri-old" "OVO002"] :=
  ⟨(claim_C4 "OVO002" (some "OVO001") "uri-sid" "uri-new" (by decide)).1,
   (claim_C4 "OVO002" (some "OVO001") "uri-sid" "uri-new" (by decide)).2
     "uri-old"⟩

/-- C7: when the fetched internal record carries no business-identifier
value, the single-record handler returns the no-internal-identifier outcome
with no external query and no store write (its event list is empty). -/
theorem claim_C7 (info : AbbOrganizationInfo)
    (wegwijsResults : String → List KboFields)
    (store : String → Option KboOrganizationInfo) (mint : String → String)
    (h : info.kbo = none) :
    syncKboData (some info) wegwijsResults store mint
      = (SyncResult.noInternalIdentifier, []) := by
  simp [syncKboData, h]

theorem claim_C7_witness :
    syncKboData
        (some ⟨"uri-org", none, "uri-kid", none, "uri-sid", none⟩)
        (fun _ => []) (fun _ => none) (fun _ => "uri-new")
      = (SyncResult.noInternalIdentifier, []) :=
  claim_C7 ⟨"uri-org", none, "uri-kid", none, "uri-sid", none⟩
    (fun _ => []) (fun _ => none) (fun _ => "uri-new") rfl

/-- C10: the single-record lookup uses exactly the first element of a
non-empty result array (later elements are ignored), and an empty array
yields `none`, which the handler maps to the no-external-match outcome after
issuing only the external query. -/
theorem claim_C10 (x : KboFields) (rest : List KboFields)
    (info : AbbOrganizationInfo) (k : String)
    (wegwijsResults : String → List KboFields)
    (store : String → Option KboOrganizationInfo) (mint : String → String)
    (hk : info.kbo = some k) (hw : wegwijsResults k = []) :
    getWegwijsOrganisation (x :: rest) = some x
    ∧ getWegwijsOrganisation ([] : List KboFields) = none
    ∧ syncKboData (some info) wegwijsResults store mint
      = (SyncResult.noExternalMatch, [Event.wegwijsQuery k]) := by
  refine ⟨rfl, rfl, ?_⟩
  simp [syncKboData, hk, hw, getWegwijsOrganisation]

theorem claim_C10_witness :
    getWegwijsOrganisation
        [⟨"111", none, none, "A", "A"⟩, ⟨"222", none, none, "B", "B"⟩]
      = some ⟨"111", none, none, "A", "A"⟩
    ∧ getWegwijsOrganisation ([] : List KboFields) = none
    ∧ syncKboData (some ⟨"uri-org", some "999", "uri-kid", none, "uri-sid", none⟩)
        (fun _ => []) (fun _ => none) (fun _ => "uri-new")
      = (SyncResult.noExternalMatch, [Event.wegwijsQuery "999"]) :=
  claim_C10 ⟨"111", none, none, "A", "A"⟩ [⟨"222", none, none, "B", "B"⟩]
    ⟨"uri-org", some "999", "uri-kid", none, "uri-sid", none⟩ "999"
    (fun _ => []) (fun _ => none) (fun _ => "uri-new") rfl rfl

theorem createOrUpdateKboOrg_reconciler (a kid : String)
    (fo : Option KboFields) (info : Option KboOrganizationInfo) :
    ∀ e ∈ createOrUpdateKboOrg a kid fo info, isReconcilerEvent e = true := by
  intro e he
  cases info with
  | none =>
    cases fo with
    | none => simp [createOrUpdateKboOrg, isUpdateNeeded] at he
    | some f =>
      simp [createOrUpdateKboOrg] at he
      subst he; rfl
  | some i =>
    cases hu : isUpdateNeeded (fo.bind KboFields.changeTime) i.modified with
    | true =>
      simp [createOrUpdateKboOrg, hu] at he
      subst he; rfl
    | false => simp [createOrUpdateKboOrg, hu] at he

theorem createOrUpdateOvoStructure_resolver (w a : Option String)
    (sid : String) (osid : Option String) (mint : String) :
    ∀ e ∈ createOrUpdateOvoStructure w a sid osid mint,
      isResolverEvent e = true := by
  intro e he
  cases w with
  | none => simp [createOrUpdateOvoStructure] at he
  | some ovo =>
    by_cases hq : a = some ovo
    · simp [createOrUpdateOvoStructure, hq] at he
    · cases osid with
      | none =>
        simp [createOrUpdateOvoStructure, hq] at he
        rcases he with he | he <;> subst he <;> rfl
      | some uri =>
        simp [createOrUpdateOvoStructure, hq] at he
        subst he; rfl

/-- C1 (counterexample): on a concrete sweep input whose record matches the
snapshot and needs both a KBO create and an OVO write, the first
RecordReconciler event strictly precedes the first SecondaryIdResolver
event, so the resolver is not invoked before the reconciler. -/
theorem claim_C1_counterexample :
    (healAbbWithWegWijsDataPure [c1Record] c1Snap c1Store c1Mint).findIdx
        isReconcilerEvent
      < (healAbbWithWegWijsDataPure [c1Record] c1Snap c1Store c1Mint).findIdx
        isResolverEvent
    ∧ (healAbbWithWegWijsDataPure [c1Record] c1Snap c1Store c1Mint).any
        isResolverEvent = true := by
  decide

/-- C1 (amended): in the sweep, for every internal record whose business
identifier has a matching snapshot entry, the RecordReconciler step
(`createOrUpdateKboOrg`) is invoked before the SecondaryIdResolver step
(`createOrUpdateOvoStructure`): the iteration's trace is the reconciler
events followed by the resolver events — the same order as the
single-record path. -/
theorem claim_C1 (snap : String → Option KboFields)
    (store : String → Option KboOrganizationInfo) (mint : String → String)
    (records : List AbbOrganizationInfo) (o : AbbOrganizationInfo)
    (k : String) (f : KboFields) (hk : o.kbo = some k)
    (hf : snap k = some f) :
    healAbbWithWegWijsDataPure records snap store mint
      = (records.map (healStep snap store mint)).flatten
    ∧ healStep snap store mint o
      = createOrUpdateKboOrg o.abbOrgUri o.kboIdUri (some f)
          (store o.abbOrgUri)
        ++ createOrUpdateOvoStructure f.ovoNumber o.ovo o.kboStructuredIdUri
          o.ovoStructuredIdUri (mint o.kboStructuredIdUri)
    ∧ (∀ e ∈ createOrUpdateKboOrg o.abbOrgUri o.kboIdUri (some f)
          (store o.abbOrgUri), isReconcilerEvent e = true)
    ∧ (∀ e ∈ createOrUpdateOvoStructure f.ovoNumber o.ovo
          o.kboStructuredIdUri o.ovoStructuredIdUri
          (mint o.kboStructuredIdUri), isResolverEvent e = true) := by
  refine ⟨rfl, ?_, createOrUpdateKboOrg_reconciler _ _ _ _,
    createOrUpdateOvoStructure_resolver _ _ _ _ _⟩
  simp [healStep, hk, hf]

theorem claim_C1_witness :
    healStep c1Snap c1Store c1Mint c1Record
      = createOrUpdateKboOrg c1Record.abbOrgUri c1Record.kboIdUri
          (some c1Fields) (c1Store c1Record.abbOrgUri)
        ++ createOrUpdateOvoStructure c1Fields.ovoNumber c1Record.ovo
          c1Record.kboStructuredIdUri c1Record.ovoStructuredIdUri
          (c1Mint c1Record.kboStructuredIdUri) :=
  (claim_C1 c1Snap c1Store c1Mint [c1Record] c1Record "0123456789" c1Fields
    rfl (by decide)).2.1

theorem insertPage_lookup (items : List KboFields) :
    ∀ (m : String → Option KboFields) (k : String),
      insertPage m items k = (lastMatch k items).elim (m k) some := by
  induction items with
  | nil => intro m k; rfl
  | cons f rest ih =>
    intro m k
    show insertPage (insertOrg m f) rest k = (lastMatch k (f :: rest)).elim (m k) some
    rw [ih]
    cases h : lastMatch k rest with
    | some g => simp [lastMatch, h]
    | none =>
      simp only [lastMatch, h, insertOrg]
      by_cases hk : f.kboNumber = k
      · simp [hk]
      · simp [hk, Ne.symm hk]

theorem lastMatch_append (k : String) (xs ys : List KboFields) :
    lastMatch k (xs ++ ys) = (lastMatch k ys).elim (lastMatch k xs) some := by
  induction xs with
  | nil =>
    cases h : lastMatch k ys <;> simp [lastMatch, h]
  | cons f xs ih =>
    show lastMatch k (f :: (xs ++ ys)) = _
    simp only [lastMatch, ih]
    cases h1 : lastMatch k ys <;> cases h2 : lastMatch k xs <;>
      simp [lastMatch, h1, h2]

theorem fetchLoop_eq (rest : List (List KboFields)) :
    ∀ m, fetchLoop m rest
      = insertPage m (rest.takeWhile (fun p => !p.isEmpty)).flatten := by
  induction rest with
  | nil => intro m; rfl
  | cons d rest ih =>
    intro m
    by_cases hd : d.isEmpty
    · simp [fetchLoop, hd, List.takeWhile_cons, insertPage]
    · simp only [fetchLoop, hd, if_false, Bool.not_false, ih,
        List.takeWhile_cons, Bool.not_eq_true', if_true]
      simp only [hd, Bool.not_false, if_true, List.flatten_cons, insertPage,
        List.foldl_append]
      simp

theorem getAllWegwijsOrganisations_eq (pages : List (List KboFields))
    (k : String) :
    getAllWegwijsOrganisations pages k
      = lastMatch k (processedPages pages).flatten := by
  cases pages with
  | nil => rfl
  | cons d0 rest =>
    show fetchLoop (insertPage emptyOrganisations d0) rest k = _
    rw [fetchLoop_eq, insertPage_lookup, insertPage_lookup]
    simp only [processedPages, List.flatten_cons, lastMatch_append,
      emptyOrganisations]
    cases h1 : lastMatch k (rest.takeWhile (fun p => !p.isEmpty)).flatten <;>
      cases h2 : lastMatch k d0 <;> simp

theorem lastMatch_isSome_iff (k : String) (items : List KboFields) :
    (lastMatch k items).isSome = true ↔ k ∈ items.map KboFields.kboNumber := by
  induction items with
  | nil => simp [lastMatch]
  | cons f rest ih =>
    simp only [List.map_cons, List.mem_cons]
    show (match lastMatch k rest with
      | some g => some g
      | none => if f.kboNumber = k then some f else none).isSome = true ↔ _
    cases h : lastMatch k rest with
    | some g =>
      refine iff_of_true rfl (Or.inr (ih.mp ?_))
      rw [h]; rfl
    | none =>
      have hr : ¬ k ∈ rest.map KboFields.kboNumber := by
        intro hm
        have hs := ih.mpr hm
        rw [h] at hs
        simp at hs
      by_cases hk : f.kboNumber = k
      · simp [hk]
      · simp [hk, Ne.symm hk, hr]

/-- C6 (counterexample): on the page sequence whose first page is empty and
whose second page holds one item, the fetch loop keeps going (the do-while
checks emptiness only after refetching), so the item's key is present in the
code's result, while stopping at the first zero-item page — as the claim
states — would yield no entry at all. -/
theorem claim_C6_counterexample :
    getAllWegwijsOrganisations [[], [c6Org]] "0123456789" = some c6Org
    ∧ fetchAllAsClaimed [[], [c6Org]] "0123456789" = none := by
  decide

/-- C6 (amended): the paged fetcher always processes the initial page and
stops at the first empty subsequent page; its result maps each key to the
last item with that identifier among the processed pages
(last-occurrence-wins), and its key set is exactly the set of identifier
values seen across the processed pages. -/
theorem claim_C6 (pages : List (List KboFields)) (k : String) :
    getAllWegwijsOrganisations pages k
      = lastMatch k (processedPages pages).flatten
    ∧ ((getAllWegwijsOrganisations pages k).isSome = true
        ↔ k ∈ (processedPages pages).flatten.map KboFields.kboNumber) := by
  refine ⟨getAllWegwijsOrganisations_eq pages k, ?_⟩
  rw [getAllWegwijsOrganisations_eq]
  exact lastMatch_isSome_iff k _

theorem sweepRun_append_error
    (step : AbbOrganizationInfo → Except String (List Event))
    (bad : AbbOrganizationInfo) (e : String)
    (post : List AbbOrganizationInfo) (hbad : step bad = Except.error e) :
    ∀ pre : List AbbOrganizationInfo, (∀ o ∈ pre, stepOk (step o) = true) →
      sweepRun step (pre ++ bad :: post)
        = ((pre.map (fun o => okEvents (step o))).flatten, some e) := by
  intro pre
  induction pre with
  | nil => intro _; simp [sweepRun, hbad]
  | cons o pre ih =>
    intro hpre
    have ho := hpre o (by simp)
    cases hso : step o with
    | error err => rw [hso] at ho; simp [stepOk] at ho
    | ok evs =>
      have hrec := ih (fun u hu => hpre u (by simp [hu]))
      show sweepRun step (o :: (pre ++ bad :: post)) = _
      simp only [sweepRun, hso, hrec, List.map_cons, List.flatten_cons,
        okEvents]

/-- C8: when an iteration of the sweep raises, the writes of the records
processed before the failure are kept, nothing from the failing record or
the remaining records is issued, and the error surfaces only as a logged
value — both the healing function and the cron callback return normally. -/
theorem claim_C8 (step : AbbOrganizationInfo → Except String (List Event))
    (pre post : List AbbOrganizationInfo) (bad : AbbOrganizationInfo)
    (e : String) (hpre : ∀ o ∈ pre, stepOk (step o) = true)
    (hbad : step bad = Except.error e) :
    cronTick step (pre ++ bad :: post)
      = ((pre.map (fun o => okEvents (step o))).flatten, some e)
    ∧ healAbbWithWegWijsData step (pre ++ bad :: post)
      = ((pre.map (fun o => okEvents (step o))).flatten, some e) := by
  have h := sweepRun_append_error step bad e post hbad pre hpre
  exact ⟨h, h⟩

theorem claim_C8_witness :
    cronTick c8Step ([c8Good1] ++ c8Bad :: [c8Good2])
      = (([c8Good1].map (fun o => okEvents (c8Step o))).flatten, some "boom")
    ∧ healAbbWithWegWijsData c8Step ([c8Good1] ++ c8Bad :: [c8Good2])
      = (([c8Good1].map (fun o => okEvents (c8Step o))).flatten,
          some "boom") :=
  claim_C8 c8Step [c8Good1] [c8Good2] c8Bad "boom" (by decide) rfl

/-- C9: reconciliation is idempotent — after applying the writes of one
reconciliation of an organization against a snapshot entry, running the same
reconciliation again against the same snapshot entry issues no write at
all. -/
theorem claim_C9 (abbOrgUri kboIdUri kboStructuredIdUri mint : String)
    (fields : KboFields) (st : OrgState) :
    reconcileOrg abbOrgUri kboIdUri kboStructuredIdUri mint fields
      (applyEvents st
        (reconcileOrg abbOrgUri kboIdUri kboStructuredIdUri mint fields st))
      = [] := by
  rcases hki : st.kboInfo with _ | i
  · rcases hov : fields.ovoNumber with _ | ovo
    · simp [reconcileOrg, createOrUpdateKboOrg, createOrUpdateOvoStructure,
        hov, hki, applyEvents, applyEvent, isUpdateNeeded_refl]
    · by_cases hoveq : st.ovo = some ovo
      · simp [reconcileOrg, createOrUpdateKboOrg, createOrUpdateOvoStructure,
          hov, hoveq, hki, applyEvents, applyEvent, isUpdateNeeded_refl]
      · rcases hosid : st.ovoStructuredIdUri with _ | uri
        · simp [reconcileOrg, createOrUpdateKboOrg,
            createOrUpdateOvoStructure, hov, hoveq, hki, hosid, applyEvents,
            applyEvent, isUpdateNeeded_refl]
        · simp [reconcileOrg, createOrUpdateKboOrg,
            createOrUpdateOvoStructure, hov, hoveq, hki, hosid, applyEvents,
            applyEvent, isUpdateNeeded_refl]
  · cases hu : isUpdateNeeded fields.changeTime i.modified
    · rcases hov : fields.ovoNumber with _ | ovo
      · simp [reconcileOrg, createOrUpdateKboOrg, createOrUpdateOvoStructure,
          hov, hki, hu, applyEvents, applyEvent, isUpdateNeeded_refl]
      · by_cases hoveq : st.ovo = some ovo
        · simp [reconcileOrg, createOrUpdateKboOrg,
            createOrUpdateOvoStructure, hov, hoveq, hki, hu, applyEvents,
            applyEvent, isUpdateNeeded_refl]
        · rcases hosid : st.ovoStructuredIdUri with _ | uri
          · simp [reconcileOrg, createOrUpdateKboOrg,
              createOrUpdateOvoStructure, hov, hoveq, hki, hosid, hu,
              applyEvents, applyEvent, isUpdateNeeded_refl]
          · simp [reconcileOrg, createOrUpdateKboOrg,
              createOrUpdateOvoStructure, hov, hoveq, hki, hosid, hu,
              applyEvents, applyEvent, isUpdateNeeded_refl]
    · rcases hov : fields.ovoNumber with _ | ovo
      · simp [reconcileOrg, createOrUpdateKboOrg, createOrUpdateOvoStructure,
          hov, hki, hu, applyEvents, applyEvent, isUpdateNeeded_refl]
      · by_cases hoveq : st.ovo = some ovo
        · simp [reconcileOrg, createOrUpdateKboOrg,
            createOrUpdateOvoStructure, hov, hoveq, hki, hu, applyEvents,
            applyEvent, isUpdateNeeded_refl]
        · rcases hosid : st.ovoStructuredIdUri with _ | uri
          · simp [reconcileOrg, createOrUpdateKboOrg,
              createOrUpdateOvoStructure, hov, hoveq, hki, hosid, hu,
              applyEvents, applyEvent, isUpdateNeeded_refl]
          · simp [reconcileOrg, createOrUpdateKboOrg,
              createOrUpdateOvoStructure, hov, hoveq, hki, hosid, hu,
              applyEvents, applyEvent, isUpdateNeeded_refl]
